import Mathlib

/-!
Verification development for the KYC repository (sowhat82/KYC).

The repository consists of a Flask variant (`app.py`), a Streamlit variant
(`streamlit_app.py`), a richer multi-page Streamlit variant (`app_v2.py`)
and a deterministic rule-based scoring module (`risk_engine.py`).

The Python string primitives used by the code (`in`, `.lower()`, `.strip()`,
`.split()`, `.splitlines()`, `re.sub`) are modelled first; each repository
function is then translated, module by module, keeping the source names.
Reference data that `risk_engine.load_json_data` reads from JSON files is
passed explicitly as a `RefData` argument, and the external PEP API consulted
by `check_pep_status` is passed as an oracle `PepOracle`, so that every
function is a pure Lean function of its visible inputs.
-/

/-- Bool test that `needle` occurs as a contiguous sublist of `hay`
(the semantics of Python `needle in hay` on strings, restricted to lists
of characters).  The empty needle occurs in every list, as in Python. -/
def chInfix (needle : List Char) : List Char → Bool
  | [] => needle.isEmpty
  | c :: t => needle.isPrefixOf (c :: t) || chInfix needle t

/-- Python `needle in hay` for strings. -/
def pyIn (needle hay : String) : Bool :=
  chInfix needle.toList hay.toList

/-- Python `s.lower()` (ASCII case folding, which is all the repository's
data uses). -/
def pyLower (s : String) : String :=
  String.mk (s.toList.map Char.toLower)

/-- Python `s.strip()`: drop leading and trailing whitespace. -/
def pyStrip (s : String) : String :=
  String.mk (((s.toList.dropWhile Char.isWhitespace).reverse.dropWhile
    Char.isWhitespace).reverse)

/-- Split a character list at every separator, keeping empty pieces
(the behaviour of splitting on a single separator occurrence list). -/
def chSplitAux (p : Char → Bool) : List Char → List Char → List (List Char)
  | [], acc => [acc.reverse]
  | c :: t, acc =>
    if p c then acc.reverse :: chSplitAux p t [] else chSplitAux p t (c :: acc)

/-- Python `s.split()` with no separator: split on whitespace runs,
discarding empty pieces. -/
def pySplit (s : String) : List String :=
  ((chSplitAux Char.isWhitespace s.toList []).map String.mk).filter
    (fun t => t ≠ "")

/-- Python `s.splitlines()` for text whose newlines are plain `\n` (all the
repository feeds it): split on `\n`, with no empty piece after a trailing
newline and `"".splitlines() = []`. -/
def pySplitlines (s : String) : List String :=
  let ps := (chSplitAux (fun c => c = '\n') s.toList []).map String.mk
  if ps.getLast? = some "" then ps.dropLast else ps

namespace RiskEngine

/-- Client fields read by `calculate_risk` (`client_data.get(...)` with the
source's defaults already applied; the unread fields `dob`, `email` and
`purpose` are omitted). -/
structure ClientData where
  name : String
  nationality : String
  address : String
  occupation : String
  amount : Int
  source_of_wealth : String
  address_mismatch : Bool
deriving DecidableEq, Repr

/-- The four uploaded files checked by Rule 6.  `none` models a key that is
absent or mapped to Python `None`; the rule inspects nothing else about the
value. -/
structure Files where
  id_doc : Option Unit
  selfie : Option Unit
  proof_address : Option Unit
  sow_doc : Option Unit
deriving DecidableEq, Repr

/-- The reference lists that `calculate_risk` loads with `load_json_data`
from `pep_sanctions.json`, `adverse_media.json` and `countries.json`. -/
structure RefData where
  pep_list : List String
  sanctions_list : List String
  adverse_media_list : List String
  high_risk_countries : List String
  high_risk_industries : List String
deriving DecidableEq, Repr

/-- One triggered-rule entry of the `reasons` list. -/
structure Reason where
  rule : String
  points : Nat
  description : String
deriving DecidableEq, Repr

/-- The dictionary returned by `calculate_risk`. -/
structure RiskResult where
  score : Nat
  band : String
  reasons : List Reason
deriving DecidableEq, Repr

/-- `name.strip().lower()` as computed at the top of `calculate_risk`. -/
def nameLower (cd : ClientData) : String :=
  pyLower (pyStrip cd.name)

/-- `all_watch_lists = pep_list + sanctions_list` (risk_engine.py line 76). -/
def watchLists (refs : RefData) : List String :=
  refs.pep_list ++ refs.sanctions_list

/-- The Rule 1 test `watch_name.lower() in name_lower or
name_lower in watch_name.lower()` (risk_engine.py line 78). -/
def watchMatch (name_lower watch_name : String) : Bool :=
  pyIn (pyLower watch_name) name_lower || pyIn name_lower (pyLower watch_name)

/-- The reason appended by Rule 1 for the matched entry
(risk_engine.py lines 80-85). -/
def rule1Reason (refs : RefData) (watch_name : String) : Reason :=
  let list_type := if refs.pep_list.contains watch_name then "PEP" else "Sanctions"
  { rule := list_type ++ " Match"
  , points := 40
  , description :=
      "Client name matches " ++ list_type ++ " list entry: " ++ watch_name }

/-- Rule 1: PEP/Sanctions match, 40 points; the `for`/`break` loop fires for
the first matching entry only (risk_engine.py lines 73-86). -/
def rule1 (cd : ClientData) (refs : RefData) : Option Reason :=
  ((watchLists refs).find? (watchMatch (nameLower cd))).map (rule1Reason refs)

/-- The Rule 2 test `country.lower() in nationality.lower() or
country.lower() in address.lower()` (risk_engine.py line 91). -/
def countryMatch (cd : ClientData) (country : String) : Bool :=
  pyIn (pyLower country) (pyLower cd.nationality) ||
    pyIn (pyLower country) (pyLower cd.address)

/-- The reason appended by Rule 2 (risk_engine.py lines 93-97). -/
def rule2Reason (country : String) : Reason :=
  { rule := "High-Risk Country"
  , points := 20
  , description := "Client associated with high-risk jurisdiction: " ++ country }

/-- Rule 2: high-risk country, 20 points, first match only
(risk_engine.py lines 88-98). -/
def rule2 (cd : ClientData) (refs : RefData) : Option Reason :=
  (refs.high_risk_countries.find? (countryMatch cd)).map rule2Reason

/-- Rule 3: transaction amount at least 100000, 15 points
(risk_engine.py lines 100-108; the source renders the amount with thousands
separators and two decimals in the description). -/
def rule3 (cd : ClientData) : Option Reason :=
  if 100000 ≤ cd.amount then
    some { rule := "High Transaction Amount"
         , points := 15
         , description := "Transaction amount ($" ++ toString cd.amount ++
             ") exceeds threshold of $100,000" }
  else none

/-- The Rule 4 test `industry.lower() in occupation.lower()`
(risk_engine.py line 113). -/
def industryMatch (cd : ClientData) (industry : String) : Bool :=
  pyIn (pyLower industry) (pyLower cd.occupation)

/-- The reason appended by Rule 4 (risk_engine.py lines 115-119). -/
def rule4Reason (industry : String) : Reason :=
  { rule := "High-Risk Occupation"
  , points := 10
  , description := "Client occupation in high-risk industry: " ++ industry }

/-- Rule 4: high-risk occupation, 10 points, first match only
(risk_engine.py lines 110-120). -/
def rule4 (cd : ClientData) (refs : RefData) : Option Reason :=
  (refs.high_risk_industries.find? (industryMatch cd)).map rule4Reason

/-- The static keyword list of Rule 5 (risk_engine.py lines 124-125). -/
def red_flag_keywords : List String :=
  ["cash", "crypto", "cryptocurrency", "inheritance", "shell",
   "anonymous", "offshore", "bearer", "nominee", "loan", "gift"]

/-- The Rule 5 test `keyword in source_of_wealth` against the lowercased
source-of-wealth text (risk_engine.py lines 71 and 127-129). -/
def sowMatch (cd : ClientData) (keyword : String) : Bool :=
  pyIn keyword (pyLower cd.source_of_wealth)

/-- Rule 5: unusual source of wealth, 10 points once however many keywords
are found (risk_engine.py lines 122-137). -/
def rule5 (cd : ClientData) : Option Reason :=
  let found_keywords := red_flag_keywords.filter (sowMatch cd)
  if found_keywords.isEmpty then none
  else
    some { rule := "Unusual Source of Wealth"
         , points := 10
         , description := "Source of wealth contains red-flag terms: " ++
             String.intercalate ", " found_keywords }

/-- The display names of missing required documents, in the source's
`required_docs` order, each rendered by `doc_key.replace('_',' ').title()`
(risk_engine.py lines 141-145). -/
def missingDocs (files : Files) : List String :=
  (if files.id_doc.isNone then ["Id Doc"] else []) ++
  (if files.selfie.isNone then ["Selfie"] else []) ++
  (if files.proof_address.isNone then ["Proof Address"] else []) ++
  (if files.sow_doc.isNone then ["Sow Doc"] else [])

/-- Rule 6: missing documents, 10 points once (risk_engine.py lines 139-153). -/
def rule6 (files : Files) : Option Reason :=
  let missing_docs := missingDocs files
  if missing_docs.isEmpty then none
  else
    some { rule := "Missing Documents"
         , points := 10
         , description := "Required documents missing: " ++
             String.intercalate ", " missing_docs }

/-- The Rule 7 test `adverse_name.lower() in name_lower or
name_lower in adverse_name.lower()` (risk_engine.py line 158). -/
def adverseMatch (name_lower adverse_name : String) : Bool :=
  pyIn (pyLower adverse_name) name_lower || pyIn name_lower (pyLower adverse_name)

/-- The reason appended by Rule 7 (risk_engine.py lines 160-164). -/
def rule7Reason (adverse_name : String) : Reason :=
  { rule := "Adverse Media"
  , points := 15
  , description := "Client name matches adverse media entry: " ++ adverse_name }

/-- Rule 7: adverse media, 15 points, first match only
(risk_engine.py lines 155-165). -/
def rule7 (cd : ClientData) (refs : RefData) : Option Reason :=
  (refs.adverse_media_list.find? (adverseMatch (nameLower cd))).map rule7Reason

/-- Rule 8: address mismatch flag, 5 points (risk_engine.py lines 167-176). -/
def rule8 (cd : ClientData) : Option Reason :=
  if cd.address_mismatch then
    some { rule := "Address Mismatch"
         , points := 5
         , description := "Address on ID document differs from provided address" }
  else none

/-- The points a rule contributes to `score`: its reason's points when it
fired, otherwise 0 (each `score += n` site pairs with a reason carrying the
same literal `n`). -/
def optPoints (o : Option Reason) : Nat :=
  match o with
  | some r => r.points
  | none => 0

/-- The eight rule outcomes in source order. -/
def ruleResults (cd : ClientData) (files : Files) (refs : RefData) :
    List (Option Reason) :=
  [rule1 cd refs, rule2 cd refs, rule3 cd, rule4 cd refs,
   rule5 cd, rule6 files, rule7 cd refs, rule8 cd]

/-- The total score accumulated by the eight `score += n` statements. -/
def risk_score (cd : ClientData) (files : Files) (refs : RefData) : Nat :=
  optPoints (rule1 cd refs) + optPoints (rule2 cd refs) + optPoints (rule3 cd) +
  optPoints (rule4 cd refs) + optPoints (rule5 cd) + optPoints (rule6 files) +
  optPoints (rule7 cd refs) + optPoints (rule8 cd)

/-- The reasons appended by the triggered rules, in source order. -/
def firedReasons (cd : ClientData) (files : Files) (refs : RefData) :
    List Reason :=
  (ruleResults cd files refs).filterMap id

/-- The note appended when no rule triggered (risk_engine.py lines 188-193). -/
def cleanReason : Reason :=
  { rule := "Clean Screening"
  , points := 0
  , description := "No adverse indicators detected" }

/-- `calculate_risk` (risk_engine.py lines 23-199): eight fixed-increment
rules, band thresholds `<25` Low / `<60` Medium / else High, and a clean
screening note when no rule fired. -/
def calculate_risk (client_data : ClientData) (files : Files)
    (refs : RefData) : RiskResult :=
  let score := risk_score client_data files refs
  let band := if score < 25 then "Low"
    else if score < 60 then "Medium"
    else "High"
  let reasons0 := firedReasons client_data files refs
  { score := score
  , band := band
  , reasons := if reasons0.isEmpty then [cleanReason] else reasons0 }

/-- `get_recommended_action` (risk_engine.py lines 202-217). -/
def get_recommended_action (risk_band : String) : String :=
  if risk_band = "Low" then "APPROVE - Proceed with standard onboarding"
  else if risk_band = "Medium" then "REQUEST EDD - Enhanced Due Diligence required"
  else if risk_band = "High" then "REJECT - Decline application or escalate to compliance"
  else "REVIEW - Manual review required"

end RiskEngine

/-- The observable behaviour of `check_pep_status` for a queried name:
`none` when it returns `(False, None)` (no match, non-200 status, empty body
or a caught exception), `some n` when it returns a hit whose first record
displays as `n` (`matches[0].get('name', 'unknown')`).  Both form variants
route all external PEP lookups through this interface. -/
def PepOracle : Type := String → Option String

/-- `re.sub(r'[^a-zA-Z ]', ' ', id_text)` as applied by `assess_risk`:
every character that is not an ASCII letter or a space becomes a space. -/
def pySubNonAlpha (s : String) : String :=
  String.mk (s.toList.map (fun c => if c.isAlpha || c = ' ' then c else ' '))

namespace App

/-- `categorize_sow` (app.py lines 127-142). -/
def categorize_sow (text : String) : String :=
  let t := pyLower text
  if pyIn "salary" t || pyIn "income" t then "Salary"
  else if pyIn "cpf" t then "CPF Withdrawal"
  else if pyIn "dividend" t || pyIn "investment" t then "Investment Income"
  else if pyIn "gift" t || pyIn "inheritance" t then "Gift or Inheritance"
  else if pyIn "sales" t || pyIn "property" t then "Asset Sale"
  else if pyStrip t = "" then "Undetected"
  else "Other"

/-- `extract_possible_name` (app.py lines 144-148): the stripped first line
holding at least two whitespace-separated words, if any. -/
def extract_possible_name (id_text : String) : Option String :=
  ((pySplitlines id_text).find?
    (fun line => 2 ≤ (pySplit (pyStrip line)).length)).map pyStrip

/-- The red-flag phrase list of `assess_risk` (app.py line 182). -/
def red_flags : List String :=
  ["cash deposit", "loan", "borrowed", "gift", "crypto", "cryptocurrency"]

/-- The yellow-flag phrase list of `assess_risk` (app.py line 183). -/
def yellow_flags : List String :=
  ["business income", "sales", "earned overseas", "family transfer",
   "remittance", "inheritance", "foreign source"]

/-- The watch-list keyword list of `assess_risk` (app.py line 184). -/
def watchlist_keywords : List String :=
  ["iran", "islamic republic", "republic of iran", "tehran", "persian",
   "north korea", "syria", "terror", "sanction"]

/-- The id-text normalisation of `assess_risk` (app.py lines 187-188):
replace every non-letter non-space character by a space, re-join the
whitespace-split words with single spaces, and lowercase. -/
def normalizeIdText (id_text : String) : String :=
  pyLower (String.intercalate " " (pySplit (pySubNonAlpha id_text)))

/-- `assess_risk` (app.py lines 181-225).  The external PEP check is the
`pep` oracle; `form_name` is `none` for Python `None`, and the source's
`if form_name:` treats the empty string like `None`. -/
def assess_risk (pep : PepOracle) (sow_text id_text : String)
    (selfie_flag : Bool) (sow_category : String) (reason_log : List String)
    (form_name : Option String) : String × List String :=
  let sow := pyLower sow_text
  let idt := normalizeIdText id_text
  if red_flags.any (fun term => pyIn term sow) then
    ("High", reason_log ++ ["SOW contains red-flag terms"])
  else
    match watchlist_keywords.find?
        (fun term => (pySplit idt).any (fun word => pyIn term word)) with
    | some term =>
      ("High", reason_log ++ ["ID contains high-risk keyword: " ++ term])
    | none =>
      if selfie_flag then
        ("High", reason_log ++ ["Selfie failed verification checks"])
      else
        let viaId : Option String :=
          match extract_possible_name idt with
          | some candidate => pep candidate
          | none => none
        match viaId with
        | some pname =>
          ("Medium", reason_log ++ ["PEP match from ID: " ++ pname])
        | none =>
          let viaForm : Option String :=
            match form_name with
            | some fn => if fn = "" then none else pep fn
            | none => none
          match viaForm with
          | some pname =>
            ("Medium", reason_log ++ ["Entered name PEP match: " ++ pname])
          | none =>
            if yellow_flags.any (fun term => pyIn term sow) then
              ("Medium", reason_log ++ ["SOW contains unclear or uncorroborated terms"])
            else if sow_category = "Undetected" || pyStrip sow = "" then
              ("Medium", reason_log ++ ["SOW could not be detected"])
            else
              ("Low", reason_log)

/-- The `except` branch of the OCR block in `upload` (app.py lines 85-102):
on success the OCR text is used as-is, on an exception with message `e` the
text becomes `"OCR failed: " ++ e`. -/
def ocr_extracted_text (r : Except String String) : String :=
  match r with
  | Except.ok t => t
  | Except.error e => "OCR failed: " ++ e

/-- The row fields written back by `upload` (app.py lines 115-120). -/
structure DbUpdate where
  status : String
  sow_category : String
  sow_notes : String
  risk_rating : String
deriving DecidableEq, Repr

/-- The pure core of the POST branch of `upload` (app.py lines 106-120):
OCR results (successful or failed) feed categorisation, risk assessment and
the database update values. -/
def upload_core (pep : PepOracle) (sow_ocr id_ocr : Except String String)
    (selfie_flag : Bool) (risk_reason : List String) (form_name : String) :
    DbUpdate :=
  let sow_text := ocr_extracted_text sow_ocr
  let id_text := ocr_extracted_text id_ocr
  let sow_category := categorize_sow sow_text
  let assessed := assess_risk pep sow_text id_text selfie_flag sow_category
    risk_reason (some form_name)
  let notes := sow_text.take 500 ++
    (if assessed.2 ≠ [] then
       "\x0aReasons: " ++ String.intercalate ", " assessed.2
     else "")
  { status := "Completed"
  , sow_category := sow_category
  , sow_notes := notes
  , risk_rating := assessed.1 }

end App

namespace StreamlitApp

/-- `categorize_sow` (streamlit_app.py lines 117-132). -/
def categorize_sow (text : String) : String :=
  let t := pyLower text
  if pyIn "salary" t || pyIn "income" t then "Salary"
  else if pyIn "cpf" t then "CPF Withdrawal"
  else if pyIn "dividend" t || pyIn "investment" t then "Investment Income"
  else if pyIn "gift" t || pyIn "inheritance" t then "Gift or Inheritance"
  else if pyIn "sales" t || pyIn "property" t then "Asset Sale"
  else if pyStrip t = "" then "Undetected"
  else "Other"

/-- `extract_possible_name` (streamlit_app.py lines 134-138). -/
def extract_possible_name (id_text : String) : Option String :=
  ((pySplitlines id_text).find?
    (fun line => 2 ≤ (pySplit (pyStrip line)).length)).map pyStrip

/-- The red-flag phrase list of `assess_risk` (streamlit_app.py line 173). -/
def red_flags : List String :=
  ["cash deposit", "loan", "borrowed", "gift", "crypto", "cryptocurrency"]

/-- The yellow-flag phrase list of `assess_risk` (streamlit_app.py line 174). -/
def yellow_flags : List String :=
  ["business income", "sales", "earned overseas", "family transfer",
   "remittance", "inheritance", "foreign source"]

/-- The watch-list keyword list of `assess_risk` (streamlit_app.py line 175). -/
def watchlist_keywords : List String :=
  ["iran", "islamic republic", "republic of iran", "tehran", "persian",
   "north korea", "syria", "terror", "sanction"]

/-- The id-text normalisation of `assess_risk` (streamlit_app.py
lines 178-179). -/
def normalizeIdText (id_text : String) : String :=
  pyLower (String.intercalate " " (pySplit (pySubNonAlpha id_text)))

/-- `assess_risk` (streamlit_app.py lines 172-216). -/
def assess_risk (pep : PepOracle) (sow_text id_text : String)
    (selfie_flag : Bool) (sow_category : String) (reason_log : List String)
    (form_name : Option String) : String × List String :=
  let sow := pyLower sow_text
  let idt := normalizeIdText id_text
  if red_flags.any (fun term => pyIn term sow) then
    ("High", reason_log ++ ["SOW contains red-flag terms"])
  else
    match watchlist_keywords.find?
        (fun term => (pySplit idt).any (fun word => pyIn term word)) with
    | some term =>
      ("High", reason_log ++ ["ID contains high-risk keyword: " ++ term])
    | none =>
      if selfie_flag then
        ("High", reason_log ++ ["Selfie failed verification checks"])
      else
        let viaId : Option String :=
          match extract_possible_name idt with
          | some candidate => pep candidate
          | none => none
        match viaId with
        | some pname =>
          ("Medium", reason_log ++ ["PEP match from ID: " ++ pname])
        | none =>
          let viaForm : Option String :=
            match form_name with
            | some fn => if fn = "" then none else pep fn
            | none => none
          match viaForm with
          | some pname =>
            ("Medium", reason_log ++ ["Entered name PEP match: " ++ pname])
          | none =>
            if yellow_flags.any (fun term => pyIn term sow) then
              ("Medium", reason_log ++ ["SOW contains unclear or uncorroborated terms"])
            else if sow_category = "Undetected" || pyStrip sow = "" then
              ("Medium", reason_log ++ ["SOW could not be detected"])
            else
              ("Low", reason_log)

/-- The `except` branch of the OCR block in `process_documents`
(streamlit_app.py lines 440-446): on an exception with message `e` the
extracted text becomes `"OCR failed: " ++ e`. -/
def ocr_extracted_text (r : Except String String) : String :=
  match r with
  | Except.ok t => t
  | Except.error e => "OCR failed: " ++ e

/-- The row fields written back by `process_documents`
(streamlit_app.py lines 457-462). -/
structure DbUpdate where
  status : String
  sow_category : String
  sow_notes : String
  risk_rating : String
deriving DecidableEq, Repr

/-- The pure core of `process_documents` after the per-file loop
(streamlit_app.py lines 450-462): the OCR outcomes, successful or failed,
feed categorisation, risk assessment and the Completed database update. -/
def process_core (pep : PepOracle) (sow_ocr id_ocr : Except String String)
    (selfie_flag : Bool) (risk_reason : List String) (client_name : String) :
    DbUpdate :=
  let sow_text := ocr_extracted_text sow_ocr
  let id_text := ocr_extracted_text id_ocr
  let sow_category := categorize_sow sow_text
  let assessed := assess_risk pep sow_text id_text selfie_flag sow_category
    risk_reason (some client_name)
  let notes := sow_text.take 500 ++
    (if assessed.2 ≠ [] then
       "\x0aReasons: " ++ String.intercalate ", " assessed.2
     else "")
  { status := "Completed"
  , sow_category := sow_category
  , sow_notes := notes
  , risk_rating := assessed.1 }

end StreamlitApp

namespace AppV2

/-- `categorize_sow` (app_v2.py lines 529-549). -/
def categorize_sow (text : String) : String :=
  let t := pyLower text
  if pyIn "salary" t || pyIn "employment" t || pyIn "payslip" t || pyIn "wage" t then
    "Employment Income"
  else if pyIn "business" t || pyIn "profit" t || pyIn "company" t then
    "Business Profits"
  else if pyIn "investment" t || pyIn "dividend" t || pyIn "capital gain" t then
    "Investment Returns"
  else if pyIn "inheritance" t || pyIn "estate" t || pyIn "bequest" t then
    "Inheritance"
  else if pyIn "property" t || pyIn "real estate" t || pyIn "sale of asset" t then
    "Asset Sale"
  else if pyIn "gift" t || pyIn "donation" t then "Gift"
  else if pyIn "pension" t || pyIn "retirement" t then "Pension/Retirement"
  else if pyStrip t = "" then "Undetected"
  else "Other"

/-- The bare `except:` branch of the OCR block in `process_kyc_submission`
(app_v2.py lines 484-492): on success the OCR text is used as-is, on any
exception `sow_text` is set to the empty string. -/
def sow_text_of_ocr (r : Except String String) : String :=
  match r with
  | Except.ok t => t
  | Except.error _ => ""

/-- The categorisation step of `process_kyc_submission` (app_v2.py
line 495): `categorize_sow(sow_text if sow_text else client['source_of_wealth'])`,
where the empty string is falsy. -/
def sow_category_of (sow_text fallback : String) : String :=
  categorize_sow (if sow_text = "" then fallback else sow_text)

/-- The result fields written back by `process_kyc_submission`
(app_v2.py lines 500-509; the source stores `risk_reasons` JSON-serialised
with `json.dumps`). -/
structure DbUpdate where
  status : String
  sow_category : String
  risk_score : Nat
  risk_band : String
  risk_reasons : List RiskEngine.Reason
deriving DecidableEq, Repr

/-- The pure core of `process_kyc_submission` after the file loop
(app_v2.py lines 484-509): the sow_doc OCR outcome, with its bare-except
empty-string fallback, feeds the categorisation fallback, `calculate_risk`
and the Completed database update. -/
def submission_core (client : RiskEngine.ClientData)
    (files : RiskEngine.Files) (refs : RiskEngine.RefData)
    (sow_ocr : Except String String) : DbUpdate :=
  let sow_text := sow_text_of_ocr sow_ocr
  let sow_category := sow_category_of sow_text client.source_of_wealth
  let risk_result := RiskEngine.calculate_risk client files refs
  { status := "Completed"
  , sow_category := sow_category
  , risk_score := risk_result.score
  , risk_band := risk_result.band
  , risk_reasons := risk_result.reasons }

end AppV2

/-- The keyword vocabulary of both `categorize_sow` variants together
(app.py lines 127-142 and app_v2.py lines 529-549); a text containing none
of these reaches the final blank-text/other fallback in both variants. -/
def c6Keywords : List String :=
  ["salary", "income", "cpf", "dividend", "investment", "gift",
   "inheritance", "sales", "property", "employment", "payslip", "wage",
   "business", "profit", "company", "capital gain", "estate", "bequest",
   "real estate", "sale of asset", "donation", "pension", "retirement"]

namespace RiskEngine

lemma pyIn_empty_left (s : String) : pyIn "" s = true := by
  unfold pyIn
  cases h : s.toList with
  | nil => rfl
  | cons c t => simp [chInfix, List.isPrefixOf]

lemma optPoints_find_map (l : List String) (p : String → Bool)
    (b : String → Reason) (n : Nat) (hb : ∀ x, (b x).points = n) :
    optPoints ((l.find? p).map b) = if l.any p then n else 0 := by
  cases h : l.find? p with
  | none =>
    have hany : l.any p = false := by
      rw [Bool.eq_false_iff]
      intro hcon
      obtain ⟨x, hx, hpx⟩ := List.any_eq_true.mp hcon
      exact (List.find?_eq_none.mp h x hx) hpx
    simp [optPoints, hany]
  | some w =>
    have hany : l.any p = true :=
      List.any_eq_true.mpr ⟨w, List.mem_of_find?_eq_some h, List.find?_some h⟩
    simp [optPoints, hany, hb w]

lemma optPoints_rule1 (cd : ClientData) (refs : RefData) :
    optPoints (rule1 cd refs) =
      if (watchLists refs).any (watchMatch (nameLower cd)) then 40 else 0 :=
  optPoints_find_map _ _ _ 40 (fun _ => rfl)

lemma optPoints_rule2 (cd : ClientData) (refs : RefData) :
    optPoints (rule2 cd refs) =
      if refs.high_risk_countries.any (countryMatch cd) then 20 else 0 :=
  optPoints_find_map _ _ _ 20 (fun _ => rfl)

lemma optPoints_rule3 (cd : ClientData) :
    optPoints (rule3 cd) = if 100000 ≤ cd.amount then 15 else 0 := by
  unfold rule3
  split <;> rfl

lemma optPoints_rule4 (cd : ClientData) (refs : RefData) :
    optPoints (rule4 cd refs) =
      if refs.high_risk_industries.any (industryMatch cd) then 10 else 0 :=
  optPoints_find_map _ _ _ 10 (fun _ => rfl)

lemma optPoints_rule5 (cd : ClientData) :
    optPoints (rule5 cd) =
      if red_flag_keywords.any (sowMatch cd) then 10 else 0 := by
  unfold rule5
  rcases h : (red_flag_keywords.filter (sowMatch cd)).isEmpty with _ | _
  · have hne := List.isEmpty_eq_false.mp h
    have : red_flag_keywords.any (sowMatch cd) = true := by
      obtain ⟨x, hx⟩ := List.exists_mem_of_ne_nil _ hne
      have hx' := List.mem_filter.mp hx
      exact List.any_eq_true.mpr ⟨x, hx'.1, hx'.2⟩
    simp [h, this, optPoints]
  · have hnil := List.isEmpty_eq_true.mp h
    have : red_flag_keywords.any (sowMatch cd) = false := by
      rw [Bool.eq_false_iff]
      intro hcon
      obtain ⟨x, hx, hpx⟩ := List.any_eq_true.mp hcon
      have : x ∈ red_flag_keywords.filter (sowMatch cd) :=
        List.mem_filter.mpr ⟨hx, hpx⟩
      rw [hnil] at this
      exact absurd this (List.not_mem_nil x)
    simp [h, this, optPoints]

lemma optPoints_rule6 (files : Files) :
    optPoints (rule6 files) =
      if files.id_doc.isNone || files.selfie.isNone ||
         files.proof_address.isNone || files.sow_doc.isNone then 10 else 0 := by
  rcases files with ⟨i, s, p, w⟩
  cases i <;> cases s <;> cases p <;> cases w <;> rfl

lemma optPoints_rule7 (cd : ClientData) (refs : RefData) :
    optPoints (rule7 cd refs) =
      if refs.adverse_media_list.any (adverseMatch (nameLower cd)) then 15 else 0 :=
  optPoints_find_map _ _ _ 15 (fun _ => rfl)

lemma optPoints_rule8 (cd : ClientData) :
    optPoints (rule8 cd) = if cd.address_mismatch then 5 else 0 := by
  unfold rule8
  split <;> rfl

lemma points_sum_filterMap (l : List (Option Reason)) :
    ((l.filterMap id).map Reason.points).sum = (l.map optPoints).sum := by
  induction l with
  | nil => rfl
  | cons o t ih =>
    cases o with
    | none => simpa [optPoints] using ih
    | some r => simp [optPoints, ih]

lemma risk_score_eq_sum (cd : ClientData) (files : Files) (refs : RefData) :
    risk_score cd files refs =
      ((firedReasons cd files refs).map Reason.points).sum := by
  rw [firedReasons, points_sum_filterMap]
  simp [ruleResults, risk_score]
  omega

lemma calculate_risk_score (cd : ClientData) (files : Files) (refs : RefData) :
    (calculate_risk cd files refs).score = risk_score cd files refs := rfl

lemma calculate_risk_band (cd : ClientData) (files : Files) (refs : RefData) :
    (calculate_risk cd files refs).band =
      (if risk_score cd files refs < 25 then "Low"
       else if risk_score cd files refs < 60 then "Medium"
       else "High") := rfl

lemma calculate_risk_reasons (cd : ClientData) (files : Files) (refs : RefData) :
    (calculate_risk cd files refs).reasons =
      (if (firedReasons cd files refs).isEmpty then [cleanReason]
       else firedReasons cd files refs) := rfl

lemma mem_fired_iff (cd : ClientData) (files : Files) (refs : RefData)
    (r : Reason) :
    r ∈ firedReasons cd files refs ↔ some r ∈ ruleResults cd files refs := by
  simp [firedReasons, List.mem_filterMap]

lemma mem_ruleResults_iff (cd : ClientData) (files : Files) (refs : RefData)
    (r : Reason) :
    some r ∈ ruleResults cd files refs ↔
      (rule1 cd refs = some r ∨ rule2 cd refs = some r ∨ rule3 cd = some r ∨
       rule4 cd refs = some r ∨ rule5 cd = some r ∨ rule6 files = some r ∨
       rule7 cd refs = some r ∨ rule8 cd = some r) := by
  simp [ruleResults, eq_comm]

lemma mem_reasons_of_mem_fired (cd : ClientData) (files : Files)
    (refs : RefData) (r : Reason) (h : r ∈ firedReasons cd files refs) :
    r ∈ (calculate_risk cd files refs).reasons := by
  rw [calculate_risk_reasons]
  have hne : (firedReasons cd files refs).isEmpty = false :=
    List.isEmpty_eq_false.mpr (List.ne_nil_of_mem h)
  simp [hne, h]

lemma points_rule1 (cd : ClientData) (refs : RefData) (r : Reason)
    (h : rule1 cd refs = some r) : r.points = 40 := by
  obtain ⟨w, hw, rfl⟩ := Option.map_eq_some'.mp h
  rfl

lemma points_rule2 (cd : ClientData) (refs : RefData) (r : Reason)
    (h : rule2 cd refs = some r) : r.points = 20 := by
  obtain ⟨w, hw, rfl⟩ := Option.map_eq_some'.mp h
  rfl

lemma points_rule3 (cd : ClientData) (r : Reason)
    (h : rule3 cd = some r) : r.points = 15 := by
  unfold rule3 at h
  split at h
  · cases h; rfl
  · cases h

lemma points_rule4 (cd : ClientData) (refs : RefData) (r : Reason)
    (h : rule4 cd refs = some r) : r.points = 10 := by
  obtain ⟨w, hw, rfl⟩ := Option.map_eq_some'.mp h
  rfl

lemma points_rule5 (cd : ClientData) (r : Reason)
    (h : rule5 cd = some r) : r.points = 10 := by
  simp only [rule5] at h
  split at h
  · cases h
  · cases h; rfl

lemma points_rule6 (files : Files) (r : Reason)
    (h : rule6 files = some r) : r.points = 10 := by
  simp only [rule6] at h
  split at h
  · cases h
  · cases h; rfl

lemma points_rule7 (cd : ClientData) (refs : RefData) (r : Reason)
    (h : rule7 cd refs = some r) : r.points = 15 := by
  obtain ⟨w, hw, rfl⟩ := Option.map_eq_some'.mp h
  rfl

lemma points_rule8 (cd : ClientData) (r : Reason)
    (h : rule8 cd = some r) : r.points = 5 := by
  unfold rule8 at h
  split at h
  · cases h; rfl
  · cases h

end RiskEngine

open RiskEngine

/-- C1: for every client_data and files input (and loaded reference data),
`calculate_risk` determines the band solely from the total score by fixed
thresholds: the band is Low exactly when the score is below 25, Medium
exactly when it is between 25 and 59, and High exactly when it is 60 or
more. -/
theorem spec_c1_band_thresholds (cd : ClientData) (files : Files)
    (refs : RefData) :
    ((calculate_risk cd files refs).band = "Low" ↔
      (calculate_risk cd files refs).score < 25) ∧
    ((calculate_risk cd files refs).band = "Medium" ↔
      (25 ≤ (calculate_risk cd files refs).score ∧
       (calculate_risk cd files refs).score < 60)) ∧
    ((calculate_risk cd files refs).band = "High" ↔
      60 ≤ (calculate_risk cd files refs).score) := by
  rw [calculate_risk_band, calculate_risk_score]
  split_ifs with h1 h2 <;>
    refine ⟨⟨fun hb => ?_, fun hs => ?_⟩, ⟨fun hb => ?_, fun hs => ?_⟩,
      ⟨fun hb => ?_, fun hs => ?_⟩⟩ <;>
    first
      | rfl
      | omega
      | (exact absurd hb (by decide))

/-- C3: the score returned by `calculate_risk` is the sum of the fixed
per-rule increments 40/20/15/10/10/10/15/5, each rule contributing its
value at most once, and the score equals the sum of the points fields of
the returned reasons (the clean-screening reason carrying 0 points). -/
theorem spec_c3_score_composition (cd : ClientData) (files : Files)
    (refs : RefData) :
    ((calculate_risk cd files refs).score =
      (if (watchLists refs).any (watchMatch (nameLower cd)) then 40 else 0) +
      (if refs.high_risk_countries.any (countryMatch cd) then 20 else 0) +
      (if 100000 ≤ cd.amount then 15 else 0) +
      (if refs.high_risk_industries.any (industryMatch cd) then 10 else 0) +
      (if red_flag_keywords.any (sowMatch cd) then 10 else 0) +
      (if files.id_doc.isNone || files.selfie.isNone ||
          files.proof_address.isNone || files.sow_doc.isNone then 10 else 0) +
      (if refs.adverse_media_list.any (adverseMatch (nameLower cd)) then 15 else 0) +
      (if cd.address_mismatch then 5 else 0)) ∧
    (calculate_risk cd files refs).score =
      ((calculate_risk cd files refs).reasons.map Reason.points).sum := by
  constructor
  · rw [calculate_risk_score, risk_score, optPoints_rule1, optPoints_rule2,
      optPoints_rule3, optPoints_rule4, optPoints_rule5, optPoints_rule6,
      optPoints_rule7, optPoints_rule8]
  · rw [calculate_risk_score, calculate_risk_reasons]
    rcases he : (firedReasons cd files refs).isEmpty with _ | _
    · simp only [he, Bool.false_eq_true, if_false]
      exact risk_score_eq_sum cd files refs
    · have hnil := List.isEmpty_eq_true.mp he
      have hsum := risk_score_eq_sum cd files refs
      rw [hnil] at hsum
      simp only [he, if_pos rfl]
      simpa [cleanReason] using hsum

/-- C4: `calculate_risk` adds the 40-point PEP/Sanctions reason exactly when
some entry of `pep_list ++ sanctions_list` matches the stripped,
lowercased client name as a substring in either direction; the reason in
the output is the one built from the first matching entry (`List.find?`
returns the first element satisfying the predicate), and every 40-point
reason in the output is that single Rule 1 reason. -/
theorem spec_c4_pep_first_match (cd : ClientData) (files : Files)
    (refs : RefData) :
    ((∃ w ∈ watchLists refs, watchMatch (nameLower cd) w = true) ↔
      ∃ r ∈ (calculate_risk cd files refs).reasons, r.points = 40) ∧
    (∀ w, (watchLists refs).find? (watchMatch (nameLower cd)) = some w →
      rule1Reason refs w ∈ (calculate_risk cd files refs).reasons) ∧
    (∀ r ∈ (calculate_risk cd files refs).reasons, r.points = 40 →
      rule1 cd refs = some r) := by
  have key : ∀ r ∈ (calculate_risk cd files refs).reasons, r.points = 40 →
      rule1 cd refs = some r := by
    intro r hr hpt
    rw [calculate_risk_reasons] at hr
    split at hr
    · simp only [List.mem_singleton] at hr
      rw [hr] at hpt
      exact absurd hpt (by decide)
    · rw [mem_fired_iff, mem_ruleResults_iff] at hr
      rcases hr with h | h | h | h | h | h | h | h
      · exact h
      · exact absurd hpt (by rw [points_rule2 cd refs r h]; decide)
      · exact absurd hpt (by rw [points_rule3 cd r h]; decide)
      · exact absurd hpt (by rw [points_rule4 cd refs r h]; decide)
      · exact absurd hpt (by rw [points_rule5 cd r h]; decide)
      · exact absurd hpt (by rw [points_rule6 files r h]; decide)
      · exact absurd hpt (by rw [points_rule7 cd refs r h]; decide)
      · exact absurd hpt (by rw [points_rule8 cd r h]; decide)
  have mem_of_find : ∀ w,
      (watchLists refs).find? (watchMatch (nameLower cd)) = some w →
      rule1Reason refs w ∈ (calculate_risk cd files refs).reasons := by
    intro w hw
    apply mem_reasons_of_mem_fired
    rw [mem_fired_iff, mem_ruleResults_iff]
    left
    rw [rule1, hw]
    rfl
  refine ⟨⟨?_, ?_⟩, mem_of_find, key⟩
  · rintro ⟨w, hw, hmatch⟩
    have hsome : ((watchLists refs).find? (watchMatch (nameLower cd))).isSome :=
      List.find?_isSome.mpr ⟨w, hw, hmatch⟩
    obtain ⟨w0, hw0⟩ := Option.isSome_iff_exists.mp hsome
    exact ⟨rule1Reason refs w0, mem_of_find w0 hw0, rfl⟩
  · rintro ⟨r, hr, hpt⟩
    have h1 := key r hr hpt
    obtain ⟨w, hw, _⟩ := Option.map_eq_some'.mp h1
    exact ⟨w, List.mem_of_find?_eq_some hw, List.find?_some hw⟩

/-- C4 witness: with client name Omar and PEP list containing the single
entry omar, Rule 1 fires for that entry and its reason appears in the
output. -/
theorem spec_c4_pep_first_match_witness :
    ((watchLists ⟨["omar"], [], [], [], []⟩).find?
      (watchMatch (nameLower ⟨"Omar", "", "", "", 0, "", false⟩)) = some "omar") ∧
    rule1Reason ⟨["omar"], [], [], [], []⟩ "omar" ∈
      (calculate_risk ⟨"Omar", "", "", "", 0, "", false⟩
        ⟨some (), some (), some (), some ()⟩
        ⟨["omar"], [], [], [], []⟩).reasons :=
  ⟨by decide,
   (spec_c4_pep_first_match ⟨"Omar", "", "", "", 0, "", false⟩
     ⟨some (), some (), some (), some ()⟩
     ⟨["omar"], [], [], [], []⟩).2.1 "omar" (by decide)⟩

/-- C9: when the client name strips to the empty string, the empty
lowercased name is a substring of every watch-list entry, so any non-empty
combined PEP/sanctions list fires Rule 1 (40 points) and any non-empty
adverse-media list fires Rule 7 (15 points): the score is at least 55. -/
theorem spec_c9_blank_name (cd : ClientData) (files : Files) (refs : RefData)
    (hname : pyStrip cd.name = "") (hwatch : watchLists refs ≠ [])
    (hadv : refs.adverse_media_list ≠ []) :
    55 ≤ (calculate_risk cd files refs).score := by
  have hn : nameLower cd = "" := by rw [nameLower, hname]; rfl
  have hw : (watchLists refs).any (watchMatch (nameLower cd)) = true := by
    obtain ⟨x, hx⟩ := List.exists_mem_of_ne_nil _ hwatch
    refine List.any_eq_true.mpr ⟨x, hx, ?_⟩
    rw [hn, watchMatch, pyIn_empty_left, Bool.or_true]
  have ha : refs.adverse_media_list.any (adverseMatch (nameLower cd)) = true := by
    obtain ⟨x, hx⟩ := List.exists_mem_of_ne_nil _ hadv
    refine List.any_eq_true.mpr ⟨x, hx, ?_⟩
    rw [hn, adverseMatch, pyIn_empty_left, Bool.or_true]
  rw [calculate_risk_score, risk_score, optPoints_rule1, optPoints_rule7,
    hw, ha, if_pos rfl, if_pos rfl]
  omega

/-- C9 witness: a whitespace-only name with singleton watch and adverse
lists scores at least 55. -/
theorem spec_c9_blank_name_witness :
    pyStrip "  " = "" ∧
    watchLists ⟨["Abc Def"], [], ["Xyz"], [], []⟩ ≠ [] ∧
    (⟨["Abc Def"], [], ["Xyz"], [], []⟩ : RefData).adverse_media_list ≠ [] ∧
    55 ≤ (calculate_risk ⟨"  ", "", "", "", 0, "", false⟩
      ⟨some (), some (), some (), some ()⟩
      ⟨["Abc Def"], [], ["Xyz"], [], []⟩).score :=
  ⟨by decide, by decide, by decide,
   spec_c9_blank_name ⟨"  ", "", "", "", 0, "", false⟩
     ⟨some (), some (), some (), some ()⟩
     ⟨["Abc Def"], [], ["Xyz"], [], []⟩ (by decide) (by decide) (by decide)⟩

/-- C10: every `calculate_risk` result has a band among Low, Medium and
High, a non-empty reasons list, and a score of at most 125; and there are
inputs, with all eight rules firing, whose score exceeds 100. -/
theorem spec_c10_invariants :
    (∀ (cd : ClientData) (files : Files) (refs : RefData),
      ((calculate_risk cd files refs).band = "Low" ∨
        (calculate_risk cd files refs).band = "Medium" ∨
        (calculate_risk cd files refs).band = "High") ∧
      (calculate_risk cd files refs).reasons ≠ [] ∧
      (calculate_risk cd files refs).score ≤ 125) ∧
    (∃ (cd : ClientData) (files : Files) (refs : RefData),
      100 < (calculate_risk cd files refs).score) := by
  constructor
  · intro cd files refs
    refine ⟨?_, ?_, ?_⟩
    · rw [calculate_risk_band]
      split_ifs <;> simp
    · rw [calculate_risk_reasons]
      rcases he : (firedReasons cd files refs).isEmpty with _ | _
      · simp only [he, Bool.false_eq_true, if_false]
        exact List.isEmpty_eq_false.mp he
      · simp [he]
    · have b1 : optPoints (rule1 cd refs) ≤ 40 := by
        rw [optPoints_rule1]; split <;> omega
      have b2 : optPoints (rule2 cd refs) ≤ 20 := by
        rw [optPoints_rule2]; split <;> omega
      have b3 : optPoints (rule3 cd) ≤ 15 := by
        rw [optPoints_rule3]; split <;> omega
      have b4 : optPoints (rule4 cd refs) ≤ 10 := by
        rw [optPoints_rule4]; split <;> omega
      have b5 : optPoints (rule5 cd) ≤ 10 := by
        rw [optPoints_rule5]; split <;> omega
      have b6 : optPoints (rule6 files) ≤ 10 := by
        rw [optPoints_rule6]; split <;> omega
      have b7 : optPoints (rule7 cd refs) ≤ 15 := by
        rw [optPoints_rule7]; split <;> omega
      have b8 : optPoints (rule8 cd) ≤ 5 := by
        rw [optPoints_rule8]; split <;> omega
      rw [calculate_risk_score, risk_score]
      omega
  · exact ⟨⟨"Victor Corrupt", "Iran", "x", "casino", 100000, "cash", true⟩,
      ⟨none, none, none, none⟩,
      ⟨["victor corrupt"], [], ["victor corrupt"], ["Iran"], ["casino"]⟩,
      by decide⟩

/-- C2 (amended): `calculate_risk` is deterministic in its arguments and
the loaded reference-list data; the form-based `assess_risk` is
deterministic once the behaviour of the external PEP check is also fixed:
two evaluations on identical arguments, identical reference data and an
identical PEP oracle return identical results. -/
theorem spec_c2_determinism :
    (∀ (cd cd2 : ClientData) (fs fs2 : Files) (refs refs2 : RefData),
      cd = cd2 → fs = fs2 → refs = refs2 →
      calculate_risk cd fs refs = calculate_risk cd2 fs2 refs2) ∧
    (∀ (pep pep2 : PepOracle) (sow sow2 idt idt2 : String) (sf sf2 : Bool)
      (cat cat2 : String) (log log2 : List String) (fn fn2 : Option String),
      pep = pep2 → sow = sow2 → idt = idt2 → sf = sf2 → cat = cat2 →
      log = log2 → fn = fn2 →
      App.assess_risk pep sow idt sf cat log fn =
        App.assess_risk pep2 sow2 idt2 sf2 cat2 log2 fn2) := by
  constructor
  · intro cd cd2 fs fs2 refs refs2 h1 h2 h3
    rw [h1, h2, h3]
  · intro pep pep2 sow sow2 idt idt2 sf sf2 cat cat2 log log2 fn fn2
      h1 h2 h3 h4 h5 h6 h7
    rw [h1, h2, h3, h4, h5, h6, h7]

/-- C2 witness: determinism instantiated at concrete inputs. -/
theorem spec_c2_determinism_witness :
    calculate_risk ⟨"a", "b", "c", "d", 0, "e", false⟩ ⟨none, none, none, none⟩
        ⟨[], [], [], [], []⟩ =
      calculate_risk ⟨"a", "b", "c", "d", 0, "e", false⟩ ⟨none, none, none, none⟩
        ⟨[], [], [], [], []⟩ ∧
    App.assess_risk (fun _ => none) "s" "i" false "Other" [] none =
      App.assess_risk (fun _ => none) "s" "i" false "Other" [] none :=
  ⟨spec_c2_determinism.1 _ _ _ _ _ _ rfl rfl rfl,
   spec_c2_determinism.2 _ _ _ _ _ _ _ _ _ _ _ _ _ _
     rfl rfl rfl rfl rfl rfl rfl⟩

/-- C2 counterexample: `assess_risk` does depend on something outside its
arguments and the static reference lists, namely the external PEP API
responses: two runs on identical arguments but different PEP behaviours
return different ratings (Medium with a hit, Low without). -/
theorem spec_c2_determinism_counterexample :
    App.assess_risk (fun _ => some "John Doe") "salary" "john doe" false
        "Salary" [] (some "John Doe") ≠
      App.assess_risk (fun _ => none) "salary" "john doe" false
        "Salary" [] (some "John Doe") := by
  decide

/-- C5: the `assess_risk` functions of app.py and streamlit_app.py are
equivalent: for every argument tuple and every behaviour of the external
PEP check, both return the same rating and reason log. -/
theorem spec_c5_variants_equal (pep : PepOracle) (sow_text id_text : String)
    (selfie_flag : Bool) (sow_category : String) (reason_log : List String)
    (form_name : Option String) :
    App.assess_risk pep sow_text id_text selfie_flag sow_category reason_log
        form_name =
      StreamlitApp.assess_risk pep sow_text id_text selfie_flag sow_category
        reason_log form_name :=
  rfl

/-- C6 counterexample: the two `categorize_sow` variants disagree: on the
input salary, app.py returns Salary while app_v2.py returns Employment
Income. -/
theorem spec_c6_categorize_counterexample :
    App.categorize_sow "salary" ≠ AppV2.categorize_sow "salary" := by
  decide

/-- C6 (amended): the two `categorize_sow` variants are not equivalent:
they use different category schemes and disagree on inputs such as salary.
On text containing no keyword of either variant they do agree: both return
Undetected for blank text and Other for non-blank text. -/
theorem spec_c6_categorize_agreement (s : String)
    (h : ∀ k ∈ c6Keywords, pyIn k (pyLower s) = false) :
    App.categorize_sow s =
      (if pyStrip (pyLower s) = "" then "Undetected" else "Other") ∧
    AppV2.categorize_sow s =
      (if pyStrip (pyLower s) = "" then "Undetected" else "Other") := by
  have h1 := h "salary" (by decide)
  have h2 := h "income" (by decide)
  have h3 := h "cpf" (by decide)
  have h4 := h "dividend" (by decide)
  have h5 := h "investment" (by decide)
  have h6 := h "gift" (by decide)
  have h7 := h "inheritance" (by decide)
  have h8 := h "sales" (by decide)
  have h9 := h "property" (by decide)
  have h10 := h "employment" (by decide)
  have h11 := h "payslip" (by decide)
  have h12 := h "wage" (by decide)
  have h13 := h "business" (by decide)
  have h14 := h "profit" (by decide)
  have h15 := h "company" (by decide)
  have h16 := h "capital gain" (by decide)
  have h17 := h "estate" (by decide)
  have h18 := h "bequest" (by decide)
  have h19 := h "real estate" (by decide)
  have h20 := h "sale of asset" (by decide)
  have h21 := h "donation" (by decide)
  have h22 := h "pension" (by decide)
  have h23 := h "retirement" (by decide)
  constructor
  · simp [App.categorize_sow, h1, h2, h3, h4, h5, h6, h7, h8, h9]
  · simp [AppV2.categorize_sow, h1, h4, h5, h6, h7, h9, h10, h11, h12, h13,
      h14, h15, h16, h17, h18, h19, h20, h21, h22, h23]

/-- C6 witness: a keyword-free non-blank text is categorised Other by both
variants. -/
theorem spec_c6_categorize_agreement_witness :
    (∀ k ∈ c6Keywords, pyIn k (pyLower "zzz") = false) ∧
    App.categorize_sow "zzz" =
      (if pyStrip (pyLower "zzz") = "" then "Undetected" else "Other") ∧
    AppV2.categorize_sow "zzz" =
      (if pyStrip (pyLower "zzz") = "" then "Undetected" else "Other") :=
  ⟨by decide,
   (spec_c6_categorize_agreement "zzz" (by decide)).1,
   (spec_c6_categorize_agreement "zzz" (by decide)).2⟩

/-- C7 counterexample: in app_v2.py (`process_kyc_submission`) a failing
OCR extraction does not produce the string OCR failed followed by the
exception text: the bare except sets `sow_text` to the empty string. -/
theorem spec_c7_ocr_counterexample :
    AppV2.sow_text_of_ocr (Except.error "image could not be read") = "" ∧
    AppV2.sow_text_of_ocr (Except.error "image could not be read") ≠
      "OCR failed: image could not be read" :=
  ⟨rfl, by decide⟩

/-- C7 (amended): when OCR extraction fails, app.py and streamlit_app.py
stringify the exception into the extracted text (OCR failed: followed by
the exception text) while app_v2.py sets the text to the empty string; in
every variant the workflow continues rather than aborting: app.py's upload
and streamlit_app.py's process_documents still categorise the text, run
assess_risk on it and produce the Completed row update, and app_v2.py's
process_kyc_submission categorises the client's declared source of wealth
as fallback, runs calculate_risk and produces the Completed row update
with that risk result. -/
theorem spec_c7_ocr_handling (e : String) (pep : PepOracle)
    (id_ocr : Except String String) (selfie_flag : Bool)
    (risk_reason : List String) (form_name : String)
    (client : ClientData) (files : Files) (refs : RefData) :
    App.ocr_extracted_text (Except.error e) = "OCR failed: " ++ e ∧
    StreamlitApp.ocr_extracted_text (Except.error e) = "OCR failed: " ++ e ∧
    AppV2.sow_text_of_ocr (Except.error e) = "" ∧
    (App.upload_core pep (Except.error e) id_ocr selfie_flag risk_reason
      form_name).status = "Completed" ∧
    (App.upload_core pep (Except.error e) id_ocr selfie_flag risk_reason
      form_name).sow_category = App.categorize_sow ("OCR failed: " ++ e) ∧
    (App.upload_core pep (Except.error e) id_ocr selfie_flag risk_reason
      form_name).risk_rating =
      (App.assess_risk pep ("OCR failed: " ++ e)
        (App.ocr_extracted_text id_ocr) selfie_flag
        (App.categorize_sow ("OCR failed: " ++ e)) risk_reason
        (some form_name)).1 ∧
    (StreamlitApp.process_core pep (Except.error e) id_ocr selfie_flag
      risk_reason form_name).status = "Completed" ∧
    (StreamlitApp.process_core pep (Except.error e) id_ocr selfie_flag
      risk_reason form_name).sow_category =
      StreamlitApp.categorize_sow ("OCR failed: " ++ e) ∧
    (StreamlitApp.process_core pep (Except.error e) id_ocr selfie_flag
      risk_reason form_name).risk_rating =
      (StreamlitApp.assess_risk pep ("OCR failed: " ++ e)
        (StreamlitApp.ocr_extracted_text id_ocr) selfie_flag
        (StreamlitApp.categorize_sow ("OCR failed: " ++ e)) risk_reason
        (some form_name)).1 ∧
    (AppV2.submission_core client files refs (Except.error e)).status =
      "Completed" ∧
    (AppV2.submission_core client files refs (Except.error e)).sow_category =
      AppV2.categorize_sow client.source_of_wealth ∧
    (AppV2.submission_core client files refs (Except.error e)).risk_score =
      (calculate_risk client files refs).score ∧
    (AppV2.submission_core client files refs (Except.error e)).risk_band =
      (calculate_risk client files refs).band ∧
    (AppV2.submission_core client files refs (Except.error e)).risk_reasons =
      (calculate_risk client files refs).reasons :=
  ⟨rfl, rfl, rfl, rfl, rfl, rfl, rfl, rfl, rfl, rfl, rfl, rfl, rfl, rfl⟩

/-- C8: whenever the lowercased source-of-wealth text contains one of the
red-flag phrases, `assess_risk` returns High with the reason SOW contains
red-flag terms appended, regardless of all other arguments: the red-flag
scan is the first check in the fixed sequence. -/
theorem spec_c8_red_flags_first (pep : PepOracle) (sow_text id_text : String)
    (selfie_flag : Bool) (sow_category : String) (reason_log : List String)
    (form_name : Option String)
    (h : ∃ term ∈ App.red_flags, pyIn term (pyLower sow_text) = true) :
    App.assess_risk pep sow_text id_text selfie_flag sow_category reason_log
        form_name =
      ("High", reason_log ++ ["SOW contains red-flag terms"]) := by
  have hany : App.red_flags.any (fun term => pyIn term (pyLower sow_text)) = true :=
    List.any_eq_true.mpr h
  simp [App.assess_risk, hany]

/-- C8 witness: a source-of-wealth text containing crypto is rated High
with the red-flag reason whatever the other arguments. -/
theorem spec_c8_red_flags_first_witness :
    (∃ term ∈ App.red_flags, pyIn term (pyLower "crypto gains") = true) ∧
    App.assess_risk (fun _ => none) "crypto gains" "some id text" true
        "Other" [] (some "X") =
      ("High", [] ++ ["SOW contains red-flag terms"]) :=
  ⟨by decide,
   spec_c8_red_flags_first (fun _ => none) "crypto gains" "some id text" true
     "Other" [] (some "X") (by decide)⟩
